import Mathlib

/-!
Shallow embedding of the asynchronous operation orchestrator of the
ai-interviewer backend (`src/backend/app`): secret masking and error
classification (`utils/error_handler.py`), user-facing message rendering
(`utils/error_messages.py`), the retry/backoff wrapper (`utils/retry.py`)
at its `services/openai_service.py` call site, the background task runners
(`tasks/question_tasks.py`, `tasks/feedback_tasks.py`) over an explicit
transactional database model, and the manual retry service
(`services/operation_service.py`) over the declared columns of
`models/operation.py`.

Python strings are modelled as `List Char` / `String`; machine floats of
the backoff arithmetic are modelled as `ℚ`; database effects are explicit
state passing with failure-injection oracles at each fallible `await`.
-/

namespace AIInterviewer

/-! ### Secret masking, from `app/utils/error_handler.py`

`_API_KEY_RE = re.compile(r"\bsk-[A-Za-z0-9]{10,}\b")` and
`mask_secrets(text) = _API_KEY_RE.sub("***MASKED***", text)`.

The regex is embedded as a left-to-right scanner over `List Char`:
a match needs a word boundary (previous character, if any, is not a word
character), the literal characters s, k, -, then a maximal run of at least
10 ASCII alphanumerics, followed by end of input or a non-word character
(the greedy run plus trailing `\b`).  `\w` is modelled for ASCII text
(underscore plus ASCII alphanumerics), which covers every string the
backend builds around keys. -/

/-- Word characters of the regex `\b` boundary (ASCII `\w`). -/

def isWordChar (c : Char) : Bool := c.isAlphanum || c == '_'

/-- The fixed replacement `"***MASKED***"` of `mask_secrets`. -/

def maskedChars : List Char :=
  ['*', '*', '*', 'M', 'A', 'S', 'K', 'E', 'D', '*', '*', '*']

/-- Split a string into its maximal leading run of ASCII alphanumerics
(`[A-Za-z0-9]`, greedy `{10,}` body) and the remainder. -/

def alnumRun : List Char → List Char × List Char
  | [] => ([], [])
  | c :: cs =>
    if c.isAlphanum then (c :: (alnumRun cs).1, (alnumRun cs).2)
    else ([], c :: cs)

/-- The trailing `\b` of the pattern: after the greedy alphanumeric run the
input must end or continue with a non-word character. -/

def boundaryAfter : List Char → Bool
  | [] => true
  | c :: _ => !(isWordChar c)

/-- Try to match `sk-[A-Za-z0-9]{10,}\b` at the head of the input,
returning the unconsumed remainder on success. -/

def keyMatch : List Char → Option (List Char)
  | 's' :: 'k' :: '-' :: rest =>
    if 10 ≤ (alnumRun rest).1.length ∧ boundaryAfter (alnumRun rest).2 = true then
      some (alnumRun rest).2
    else none
  | _ => none

/-- Fuelled left-to-right scanner of `re.sub`: at each position where the
preceding character (tracked in `prev`) is not a word character, try the
key pattern; on a match emit `"***MASKED***"` and resume after the match
(the character before the resume point is the final alphanumeric of the
matched run, a word character); otherwise copy one character.  The fuel
only makes the recursion structural; `maskAuxF_congr` shows any fuel at
least the input length gives the same result. -/

def maskAuxF : Nat → Bool → List Char → List Char
  | _, _, [] => []
  | 0, _, l => l
  | fuel + 1, prev, c :: cs =>
    match keyMatch (c :: cs) with
    | some rest =>
      if prev then c :: maskAuxF fuel (isWordChar c) cs
      else maskedChars ++ maskAuxF fuel true rest
    | none => c :: maskAuxF fuel (isWordChar c) cs

/-- The scanner of `mask_secrets`, started with enough fuel. -/

def maskAux (prev : Bool) (l : List Char) : List Char := maskAuxF l.length prev l

/-- `mask_secrets` from `app/utils/error_handler.py`. -/

def mask_secrets (s : String) : String := ⟨maskAux false s.data⟩

/-- Scan like the masker, but only report whether a word-boundary-delimited
occurrence of the key pattern is present anywhere in the input. -/

def hasKeyAux : Bool → List Char → Bool
  | _, [] => false
  | prev, c :: cs => (!prev && (keyMatch (c :: cs)).isSome) || hasKeyAux (isWordChar c) cs

/-- An API-key-shaped string as the spec describes it: the fixed prefix
`sk-` followed by 10 or more ASCII alphanumerics. -/

def isApiKeyShaped : List Char → Bool
  | 's' :: 'k' :: '-' :: rest => 10 ≤ rest.length && rest.all Char.isAlphanum
  | _ => false

/-! ### Error taxonomy and classification, from `app/core/exceptions.py`
and `classify_openai_error` in `app/utils/error_handler.py`

The OpenAI SDK exceptions reaching the classifier are modelled by the
shape the classifier inspects: the `isinstance` chain of the source tests
`APIConnectionError | APITimeoutError` first (`APITimeoutError` is a
subclass of `APIConnectionError`), then the SDK `RateLimitError` (a
subclass of `APIStatusError ⊂ APIError` whose instances always carry HTTP
status 429), then any other `APIError` with its `status_code`/`body`
attributes, and finally any unrelated exception. -/

/-- The error body inspected by `(body or {}).get("error", {}).get("code")`. -/

structure ErrorBody where
  code : Option String

deriving DecidableEq

/-- An upstream exception as seen by `classify_openai_error`.  The `msg`
field is what `str(error)` returns. -/

inductive SDKError where
  | apiConnectionError (msg : String)
  | apiTimeoutError (msg : String)
  | rateLimitError (msg : String) (body : Option ErrorBody)
  | apiError (msg : String) (statusCode : Option Nat) (body : Option ErrorBody)
  | otherError (msg : String)

deriving DecidableEq

/-- `getattr(error, "status_code", None)`; SDK `RateLimitError` instances
always carry status 429, connection/timeout and unknown errors carry none. -/

def _extract_status_code : SDKError → Option Nat
  | .rateLimitError _ _ => some 429
  | .apiError _ st _ => st
  | _ => none

/-- `getattr(error, "body", None)`. -/

def _extract_body : SDKError → Option ErrorBody
  | .rateLimitError _ b => b
  | .apiError _ _ b => b
  | _ => none

/-- `str(error)`. -/

def SDKError.str : SDKError → String
  | .apiConnectionError m => m
  | .apiTimeoutError m => m
  | .rateLimitError m _ => m
  | .apiError m _ _ => m
  | .otherError m => m

/-- The closed taxonomy of `app/core/exceptions.py`: the six leaf
subclasses of `OpenAIIntegrationError`. -/

inductive AppErrorKind where
  | network
  | authentication
  | rateLimit
  | server
  | invalidResponse
  | quotaExceeded

deriving DecidableEq

/-- An `OpenAIIntegrationError` instance: which leaf class it is, its
`message` and its `error_code`. -/

structure OpenAIIntegrationError where
  kind : AppErrorKind
  message : String
  error_code : String

deriving DecidableEq

/-- Python `s.lower()` for the ASCII text involved here. -/

def lowerString (s : String) : String := ⟨s.data.map Char.toLower⟩

/-- Python `needle in hay` on strings. -/

def strContains (hay needle : String) : Bool := decide (needle.data <:+: hay.data)

/-- `500 <= status_code <= 599` with the `is not None` guard. -/

def is5xxStatus : Option Nat → Bool
  | some n => decide (500 ≤ n) && decide (n ≤ 599)
  | none => false

/-- `classify_openai_error` from `app/utils/error_handler.py`, branch for
branch: connection/timeout, then the SDK RateLimitError class, then the
`APIError` chain (401, quota marker, 429, 5xx, fallback), then unknown. -/

def classify_openai_error (error : SDKError) : OpenAIIntegrationError :=
  match error with
  | .apiConnectionError _ =>
    ⟨.network, "Network error connecting to OpenAI. Please try again.", "NETWORK_ERROR"⟩
  | .apiTimeoutError _ =>
    ⟨.network, "Network error connecting to OpenAI. Please try again.", "NETWORK_ERROR"⟩
  | .rateLimitError _ _ =>
    ⟨.rateLimit, "OpenAI rate limit exceeded. Please wait and try again.", "RATE_LIMIT"⟩
  | .apiError msg st body =>
    if st = some 401 then
      ⟨.authentication, "Invalid OpenAI API key. Please update it in settings.", "INVALID_API_KEY"⟩
    else
      let code : Option String := body.bind ErrorBody.code
      if code = some ("insufficient_quota") ∨
          strContains (lowerString msg) ("quota") = true then
        ⟨.quotaExceeded, "OpenAI quota exceeded. Please check your plan/billing.", "QUOTA_EXCEEDED"⟩
      else if st = some 429 then
        ⟨.rateLimit, "OpenAI rate limit exceeded. Please wait and try again.", "RATE_LIMIT"⟩
      else if is5xxStatus st = true then
        ⟨.server, "OpenAI service temporarily unavailable.", "SERVER_ERROR"⟩
      else
        ⟨.invalidResponse, "Unexpected response from OpenAI.", "INVALID_RESPONSE"⟩
  | .otherError _ =>
    ⟨.invalidResponse, "Unexpected error from OpenAI.", "INVALID_RESPONSE"⟩

/-- The failing input of claim C4, taken from the repository's own test
`test_classify_quota_exceeded_when_openai_raises_rate_limit_error`: an SDK
`RateLimitError` (HTTP 429) whose body and message both carry the quota
marker. -/

def quotaRateLimitInput : SDKError :=
  .rateLimitError ("Error code: 429 - insufficient_quota")
    (some ⟨some ("insufficient_quota")⟩)

/-! ### Retry with exponential backoff, from `app/utils/retry.py` and its
only call site `OpenAIService._chat_completion_create` in
`app/services/openai_service.py`

The wrapper loop `for attempt in range(0, max_retries + 1)` is embedded
with the absolute attempt index plus the remaining retry budget
`max_retries - attempt`, so the `attempt >= max_retries` break is
`remaining = 0`.  The wrapped coroutine's outcomes are an oracle
`f : Nat → Except ε α` (`.error e` is a raised exception, caught only when
`retriable e`, the `except retriable_exceptions` clause); the sampled
`random.uniform(0.0, jitter_ratio * delay)` before the k-th retry is an
oracle `jit : Nat → ℚ`.  Python floats are modelled as rationals. -/

/-- One execution of the `async_retry` wrapper body: the number of times
the wrapped function is invoked, the `wait_seconds` values slept in order,
and the final outcome (`.error e` models the re-raised exception). -/

def retryGo {ε α : Type} (base : ℚ) (retriable : ε → Bool) (f : Nat → Except ε α)
    (jit : Nat → ℚ) : Nat → Nat → Nat × List ℚ × Except ε α
  | attempt, 0 =>
    match f attempt with
    | .ok v => (1, [], .ok v)
    | .error e => (1, [], .error e)
  | attempt, r + 1 =>
    match f attempt with
    | .ok v => (1, [], .ok v)
    | .error e =>
      if retriable e then
        let delay := base * 2 ^ attempt
        let wait := delay + jit attempt
        let rest := retryGo base retriable f jit (attempt + 1) r
        (rest.1 + 1, wait :: rest.2.1, rest.2.2)
      else (1, [], .error e)

/-- A full run of a function wrapped by
`async_retry(max_retries=.., backoff_base_seconds=.., retriable_exceptions=..,
jitter_ratio=..)`, starting at attempt 0 with the whole retry budget. -/

def async_retry_run {ε α : Type} (max_retries : Nat) (base : ℚ) (retriable : ε → Bool)
    (f : Nat → Except ε α) (jit : Nat → ℚ) : Nat × List ℚ × Except ε α :=
  retryGo base retriable f jit 0 max_retries

/-- `isinstance(exc, retriable_exceptions)` for the call-site tuple
`(NetworkError, ServerError)` of `OpenAIService._chat_completion_create`. -/

def openaiRetriable (e : OpenAIIntegrationError) : Bool :=
  match e.kind with
  | .network => true
  | .server => true
  | _ => false

/-- A run of the `async_retry` configuration wrapped around the upstream
OpenAI call: `max_retries=3, backoff_base_seconds=1.0,
retriable_exceptions=(NetworkError, ServerError), jitter_ratio=0.1`. -/

def chat_completion_retry_run {α : Type} (f : Nat → Except OpenAIIntegrationError α)
    (jit : Nat → ℚ) : Nat × List ℚ × Except OpenAIIntegrationError α :=
  async_retry_run 3 1 openaiRetriable f jit

/-! ### User-facing message rendering, from `app/utils/error_messages.py`

Templates are rendered with `str.format_map(_SafeFormatDict(ctx))`; the
scanner below implements the `{key}` substitution used by these templates
(no format specs, escapes or lone braces occur in the table), with the
`_SafeFormatDict` behaviour of leaving unknown keys as `\x7bkey\x7d`.
`_normalized_context` always overwrites `operation_phrase` and
`operation_capitalized` from `operation_type`; the task runners pass a
context containing exactly `operation_type`, which is how it is modelled
(the `retry_count` coercion of the source touches a key no template
references and no runner passes). -/

/-- One entry of `ERROR_MESSAGE_TEMPLATES`. -/

structure MessageTemplate where
  message : String
  action : String
  retriable : Bool
  severity : String

deriving DecidableEq

/-- `ERROR_MESSAGE_TEMPLATES`, code for code. -/

def ERROR_MESSAGE_TEMPLATES : String → Option MessageTemplate
  | "RESUME_REQUIRED" => some
    ⟨"Unable to {operation_phrase}. A resume is required.",
     "Add your resume in your profile settings, then try again.", false, "error"⟩
  | "JOB_POSTING_REQUIRED" => some
    ⟨"Unable to {operation_phrase}. This session is missing its job posting.",
     "Create or select a job posting for this session, then try again.", false, "error"⟩
  | "NO_ANSWERS" => some
    ⟨"Unable to {operation_phrase}. There are no answers to analyze.",
     "Complete at least one interview question, then try again.", false, "error"⟩
  | "API_KEY_NOT_CONFIGURED" => some
    ⟨"Unable to {operation_phrase}. No OpenAI API key is configured.",
     "Add your OpenAI API key in your profile settings, then try again.", false, "error"⟩
  | "INVALID_API_KEY" => some
    ⟨"Unable to {operation_phrase}. Your OpenAI API key appears to be invalid.",
     "Check your OpenAI API key configuration in your profile settings.", false, "error"⟩
  | "API_KEY_DECRYPTION_FAILED" => some
    ⟨"Unable to {operation_phrase}. Your OpenAI API key needs to be reconfigured.",
     "Re-enter your OpenAI API key in your profile settings.", false, "error"⟩
  | "OPENAI_QUOTA_EXCEEDED" => some
    ⟨"Unable to {operation_phrase}. Your OpenAI account has exceeded its quota.",
     "Check your OpenAI billing/usage and update your plan, then try again.", false, "error"⟩
  | "OPENAI_RATE_LIMIT" => some
    ⟨"{operation_capitalized} is taking longer than expected due to high demand.",
     "Wait a moment and try again.", true, "warning"⟩
  | "OPENAI_CONNECTION_ERROR" => some
    ⟨"Unable to {operation_phrase} because the AI service could not be reached.",
     "Check your internet connection and try again.", true, "warning"⟩
  | "OPENAI_SERVER_ERROR" => some
    ⟨"The AI service is temporarily unavailable.",
     "Try again in a few moments.", true, "warning"⟩
  | "OPENAI_INVALID_RESPONSE" => some
    ⟨"The AI service returned an unexpected response.",
     "Try again. If the problem persists, contact support.", true, "error"⟩
  | "UNEXPECTED_ERROR" => some
    ⟨"An unexpected error occurred while contacting the AI service.",
     "Try again. If the problem persists, contact support.", true, "error"⟩
  | "SESSION_NOT_FOUND" => some
    ⟨"Unable to {operation_phrase}. The session could not be found.",
     "Refresh the page. If the problem persists, return to your sessions list and try again.",
     false, "error"⟩
  | "USER_NOT_FOUND" => some
    ⟨"Unable to {operation_phrase}. Your account could not be loaded.",
     "Try again. If the problem persists, log out and log back in.", false, "error"⟩
  | "FEEDBACK_ALREADY_EXISTS" => some
    ⟨"Feedback has already been generated for this session.",
     "Refresh the page to view the existing feedback.", false, "info"⟩
  | "DB_WRITE_FAILED" => some
    ⟨"We couldn't save the result of this AI operation.",
     "Try again. If the problem persists, contact support.", true, "error"⟩
  | "FEEDBACK_PARSE_FAILED" => some
    ⟨"We couldn't process the AI feedback response.",
     "Try again. If the problem persists, contact support.", true, "error"⟩
  | _ => none

/-- `_DEFAULT_TEMPLATE`. -/

def _DEFAULT_TEMPLATE : MessageTemplate :=
  ⟨"An unexpected error occurred while contacting the AI service.",
   "Try again. If the problem persists, contact support.", true, "error"⟩

/-- `get_error_template`. -/

def get_error_template (error_code : String) : MessageTemplate :=
  (ERROR_MESSAGE_TEMPLATES error_code).getD _DEFAULT_TEMPLATE

/-- `_OPERATION_PHRASES.get(operation_type, "complete your request")`. -/

def operationPhrase : String → String
  | "question_generation" => "generate your interview question"
  | "feedback_analysis" => "analyze your answer"
  | _ => "complete your request"

/-- The `operation_capitalized` computation of `_normalized_context`. -/

def operationCapitalized : String → String
  | "question_generation" => "Question generation"
  | "feedback_analysis" => "Feedback analysis"
  | _ => "This operation"

/-- `_normalized_context` for the context the task runners pass
(`operation_type` only). -/

def _normalized_context (operationType : String) : List (String × String) :=
  [("operation_type", operationType),
   ("operation_phrase", operationPhrase operationType),
   ("operation_capitalized", operationCapitalized operationType)]

/-- Key lookup of `_SafeFormatDict`: a missing key renders back as the
braced key. -/

def ctxLookup (ctx : List (String × String)) (key : List Char) : List Char :=
  match ctx.find? (fun p => p.1 == String.mk key) with
  | some p => p.2.data
  | none => '{' :: (key ++ ['}'])

/-- The `{key}` substitution scan of `template.format_map`.  The second
argument is `none` outside a placeholder and `some acc` (reversed key so
far) inside one. -/

def pyFormatAux (ctx : List (String × String)) : List Char → Option (List Char) → List Char
  | [], none => []
  | [], some acc => '{' :: acc.reverse
  | c :: rest, none =>
    if c = '{' then pyFormatAux ctx rest (some [])
    else c :: pyFormatAux ctx rest none
  | c :: rest, some acc =>
    if c = '}' then ctxLookup ctx acc.reverse ++ pyFormatAux ctx rest none
    else pyFormatAux ctx rest (some (c :: acc))

/-- `render_template`. -/

def render_template (template : String) (ctx : List (String × String)) : String :=
  ⟨pyFormatAux ctx template.data none⟩

/-- Python `str.strip()` (whitespace from both ends). -/

def pyStrip (s : String) : String :=
  ⟨((s.data.dropWhile Char.isWhitespace).reverse.dropWhile Char.isWhitespace).reverse⟩

/-- `generate_user_friendly_message(error_code, {"operation_type": t})`:
render message and action, join with the fixed `What to do:` separator,
and pass the result through `mask_secrets`. -/

def generate_user_friendly_message (error_code : String) (operationType : String) : String :=
  let template := get_error_template error_code
  let message := render_template template.message (_normalized_context operationType)
  let action := render_template template.action (_normalized_context operationType)
  let combined :=
    if pyStrip action = "" then pyStrip message
    else pyStrip message ++ "\n\nWhat to do: " ++ pyStrip action
  mask_secrets combined

/-! ### The task runners, from `app/tasks/question_tasks.py` and
`app/tasks/feedback_tasks.py`

Each runner is modelled as a function from the committed database state
and an oracle of outcomes of its fallible awaited steps to the list of
committed states it produces, in order (each element is one successful
`db.commit()` observed by a poller).  The oracle injects failure at the
steps whose failure the claims are about: the generation call, the atomic
store (`flush` + `commit`) of the success block, the question task's
post-commit `db.refresh(message)`, the commit of the store-failure
handler, and the commit of the outer exception handler.  The initial
`status = "processing"` commit and the input-missing failure commits are
modelled as succeeding — their failure only truncates the trace in the
same way the modelled outer-commit failure does.  `db.rollback()` restores
the staged state to the last committed state, which is how the source's
handlers discard staged side effects. -/

/-- The columns of the `Operation` row a task runner reads or writes. -/

structure OpState (ρ : Type) where
  operation_type : String
  status : String
  result : Option ρ
  error_message : Option String

deriving DecidableEq

/-- The `question_data` dict returned by `generate_question`. -/

structure QuestionData where
  question_text : String
  question_type : String

deriving DecidableEq

/-- The feedback payload: `result.model_dump()` plus `overall_score`,
stored opaquely in `Operation.result`. -/

structure FeedbackData where
  payload : String

deriving DecidableEq

deriving instance DecidableEq for Except

/-- An exception reaching a task runner's outer handler: a FastAPI
`HTTPException` whose dict detail may carry a `code`, or anything else. -/

inductive TaskExc where
  | httpExc (code : Option String) (message : String)
  | plainExc (message : String)

deriving DecidableEq

/-- `_extract_error_code` (identical in both task modules): the `code` of
an `HTTPException` dict detail when it is a nonempty string, otherwise
`UNEXPECTED_ERROR`. -/

def _extract_error_code : TaskExc → String
  | .httpExc (some c) _ => if c = "" then "UNEXPECTED_ERROR" else c
  | .httpExc none _ => "UNEXPECTED_ERROR"
  | .plainExc _ => "UNEXPECTED_ERROR"

/-- Committed state touched by `generate_question_task`: the operation row,
the number of `SessionMessage` rows of the session, and the session's
`current_question_number`. -/

structure QWorld where
  op : OpState QuestionData
  msgCount : Nat
  currentQuestionNumber : Nat

deriving DecidableEq

/-- Outcomes of the fallible steps of one `generate_question_task` run. -/

structure QOracle where
  opFound : Bool
  sessionFound : Bool
  gen : Except TaskExc QuestionData
  storeOk : Bool
  refreshOk : Bool
  failCommitOk : Bool
  outerCommitOk : Bool

deriving DecidableEq

/-- Write `status = "failed"` and the rendered message for `code` on the
operation row of `w` (the shape of every failure write of the runners). -/

def opFailedQ (w : QWorld) (code : String) : QWorld :=
  { w with op := { w.op with
      status := "failed",
      error_message := some (generate_user_friendly_message code w.op.operation_type) } }

/-- `generate_question_task` from `app/tasks/question_tasks.py`: load the
operation (absent: log and return), commit `processing`, load the session
(absent: commit a `SESSION_NOT_FOUND` failure), run `generate_question`;
on success stage the message insert, the counter increment, `completed`
and `result`, then flush and commit atomically; a store failure rolls the
staged changes back and commits a `DB_WRITE_FAILED` failure; a failure of
`db.refresh(message)` — which the source places inside the same `try`
*after* the successful commit — takes the same `DB_WRITE_FAILED` path but
can no longer undo the committed side effects; any other exception takes
the outer handler, which rolls back and commits a failure with the
extracted code.  A failed handler commit propagates to the outer handler
(`UNEXPECTED_ERROR`); if that commit also fails the operation is left as
last committed. -/

def generate_question_task (w : QWorld) (o : QOracle) : List QWorld :=
  if o.opFound = false then []
  else
    let w1 : QWorld := { w with op := { w.op with status := "processing" } }
    if o.sessionFound = false then
      [w1, opFailedQ w1 ("SESSION_NOT_FOUND")]
    else
      match o.gen with
      | .error e =>
        if o.outerCommitOk then [w1, opFailedQ w1 (_extract_error_code e)]
        else [w1]
      | .ok qd =>
        if o.storeOk then
          let w2 : QWorld := { w1 with
            op := { w1.op with
              status := "completed",
              result := some qd },
            msgCount := w1.msgCount + 1,
            currentQuestionNumber := w1.currentQuestionNumber + 1 }
          if o.refreshOk then [w1, w2]
          else if o.failCommitOk then [w1, w2, opFailedQ w2 ("DB_WRITE_FAILED")]
          else if o.outerCommitOk then [w1, w2, opFailedQ w2 ("UNEXPECTED_ERROR")]
          else [w1, w2]
        else
          if o.failCommitOk then [w1, opFailedQ w1 ("DB_WRITE_FAILED")]
          else if o.outerCommitOk then [w1, opFailedQ w1 ("UNEXPECTED_ERROR")]
          else [w1]

/-- Committed state touched by `generate_feedback_task`: the operation row
and the number of `InterviewFeedback` rows of the session. -/

structure FWorld where
  op : OpState FeedbackData
  feedbackCount : Nat

deriving DecidableEq

/-- Outcome of the feedback store block: success, an `IntegrityError`
(duplicate `session_id`), or any other store failure. -/

inductive StoreOutcome where
  | success
  | integrityError
  | otherError

deriving DecidableEq

/-- Outcomes of the fallible steps of one `generate_feedback_task` run. -/

structure FOracle where
  opFound : Bool
  userFound : Bool
  analyze : Except TaskExc FeedbackData
  store : StoreOutcome
  failCommitOk : Bool
  outerCommitOk : Bool

deriving DecidableEq

/-- As `opFailedQ`, for the feedback runner. -/

def opFailedF (w : FWorld) (code : String) : FWorld :=
  { w with op := { w.op with
      status := "failed",
      error_message := some (generate_user_friendly_message code w.op.operation_type) } }

/-- `generate_feedback_task` from `app/tasks/feedback_tasks.py`: load the
operation (absent: return), commit `processing`, load the user (absent:
commit a `USER_NOT_FOUND` failure), run `analyze_session`; on success
stage the feedback insert plus `completed`/`result` and flush + commit
atomically (nothing fallible follows the commit inside the `try`); an
`IntegrityError` commits a `FEEDBACK_ALREADY_EXISTS` failure, any other
store failure commits `DB_WRITE_FAILED`, after rolling the staged insert
back; other exceptions take the outer handler as in the question task. -/

def generate_feedback_task (w : FWorld) (o : FOracle) : List FWorld :=
  if o.opFound = false then []
  else
    let w1 : FWorld := { w with op := { w.op with status := "processing" } }
    if o.userFound = false then
      [w1, opFailedF w1 ("USER_NOT_FOUND")]
    else
      match o.analyze with
      | .error e =>
        if o.outerCommitOk then [w1, opFailedF w1 (_extract_error_code e)]
        else [w1]
      | .ok fd =>
        match o.store with
        | .success =>
          [w1, { w1 with
            op := { w1.op with
              status := "completed",
              result := some fd },
            feedbackCount := w1.feedbackCount + 1 }]
        | .integrityError =>
          if o.failCommitOk then [w1, opFailedF w1 ("FEEDBACK_ALREADY_EXISTS")]
          else if o.outerCommitOk then [w1, opFailedF w1 ("UNEXPECTED_ERROR")]
          else [w1]
        | .otherError =>
          if o.failCommitOk then [w1, opFailedF w1 ("DB_WRITE_FAILED")]
          else if o.outerCommitOk then [w1, opFailedF w1 ("UNEXPECTED_ERROR")]
          else [w1]

/-! ### The manual retry service, from `app/services/operation_service.py`
over the ORM model `app/models/operation.py`

`retry_operation` reads `original_op.retry_count` and constructs
`Operation(operation_type=…, status="pending", parent_operation_id=…,
retry_count=…)`.  The `Operation` declarative model maps exactly the
columns `id, operation_type, status, result, error_message, created_at,
updated_at` — it declares no `retry_count` and no `parent_operation_id`
(the Alembic migration `20251227_0200` adds those columns to the *table*,
but the ORM class was never updated).  Attribute access on a loaded

instance is therefore modelled as lookup in the map of mapped columns:
`original_op.retry_count` raises `AttributeError`, and even with a value
the declarative constructor would reject the unknown keyword arguments
with `TypeError`.  The model returns the resulting operations table
together with the outcome, so that "the service never mutates or adds a
row" is expressible. -/

/-- A Python value held by a mapped attribute. -/

inductive PyValue where
  | vUuid (n : Nat)
  | vStr (s : String)
  | vJson (s : String)
  | vDatetime (n : Nat)
  | vNone

deriving DecidableEq

/-- A committed `operations` row as the ORM class maps it: exactly the
columns declared in `app/models/operation.py`. -/

structure OperationRow where
  id : Nat
  operation_type : String
  status : String
  result : Option String
  error_message : Option String
  created_at : Nat
  updated_at : Nat

deriving DecidableEq

/-- The mapped attributes of a loaded `Operation` instance — one entry per
column declared on the model class. -/

def opAttrs (r : OperationRow) : List (String × PyValue) :=
  [("id", .vUuid r.id),
   ("operation_type", .vStr r.operation_type),
   ("status", .vStr r.status),
   ("result", match r.result with | some j => .vJson j | none => .vNone),
   ("error_message", match r.error_message with | some m => .vStr m | none => .vNone),
   ("created_at", .vDatetime r.created_at),
   ("updated_at", .vDatetime r.updated_at)]

/-- Python attribute lookup on a loaded instance (`none` = AttributeError). -/

def pyGetattr (attrs : List (String × PyValue)) (name : String) : Option PyValue :=
  (attrs.find? (fun p => p.1 == name)).map Prod.snd

/-- An exception raised by `retry_operation`. -/

inductive PyRaise where
  | valueError (msg : String)
  | attributeError (attr : String)
  | typeError (msg : String)

deriving DecidableEq

/-- `retry_operation(operation_id, user_id, db)` from
`app/services/operation_service.py`: select the operation by id
(`ValueError("Operation not found")` if absent), reject non-`failed`
status (`ValueError("Can only retry failed operations")`), then build the
new row from `original_op.operation_type`, `original_op.id` and
`original_op.retry_count + 1`.  The last read is an attribute the model
does not map, so it raises; were a value present, the declarative
`Operation(...)` constructor would still reject the unknown
`parent_operation_id` / `retry_count` keyword arguments.  Returns the
resulting table and the outcome. -/

def retry_operation (ops : List OperationRow) (operationId : Nat) (_userId : Nat) :
    List OperationRow × Except PyRaise OperationRow :=
  match ops.find? (fun r => r.id == operationId) with
  | none => (ops, .error (.valueError ("Operation not found")))
  | some originalOp =>
    if originalOp.status ≠ "failed" then
      (ops, .error (.valueError ("Can only retry failed operations")))
    else
      match pyGetattr (opAttrs originalOp) ("retry_count") with
      | none => (ops, .error (.attributeError ("retry_count")))
      | some _ =>
        (ops, .error (.typeError ("invalid keyword argument for Operation")))

/-- The failed operation of the repository's own endpoint test
`test_retry_failed_operation_creates_new_operation`. -/

def failedOpRow : OperationRow :=
  ⟨7, "question_generation", "failed", none, some ("Network timeout"), 0, 0⟩

/-! ### Status ordering and concrete scenario inputs -/

/-- The forward ordering `pending < processing < {completed, failed}`. -/

def statusRank : String → Nat
  | "processing" => 1
  | "completed" => 2
  | "failed" => 2
  | _ => 0

/-- Terminal statuses. -/

def isTerminalStatus (s : String) : Bool := s == "completed" || s == "failed"

/-- One legal step of the operation status: the rank never decreases and a
terminal status never changes. -/

def statusStepOk (a b : String) : Prop :=
  statusRank a ≤ statusRank b ∧ (isTerminalStatus a = true → b = a)

instance (a b : String) : Decidable (statusStepOk a b) := by
  unfold statusStepOk
  infer_instance

/-- A fresh question-generation operation as its creator commits it
(status `pending`, no result, no error), with no messages yet. -/

def qFreshWorld : QWorld :=
  ⟨⟨"question_generation", "pending", none, none⟩, 0, 0⟩

/-- Oracle of the run in which generation and the atomic store succeed but
the post-commit `db.refresh(message)` fails; the handler commit succeeds. -/

def qRefreshFailOracle : QOracle :=
  ⟨true, true, .ok ⟨"What is a closure?", "technical"⟩, true, false, true, true⟩

/-- Oracle of a fully successful run. -/

def qSuccessOracle : QOracle :=
  ⟨true, true, .ok ⟨"What is a closure?", "technical"⟩, true, true, true, true⟩

/-- Oracle of the run in which generation succeeds but the atomic store
fails and the `DB_WRITE_FAILED` failure commit succeeds. -/

def qStoreFailOracle : QOracle :=
  ⟨true, true, .ok ⟨"What is a closure?", "technical"⟩, false, true, true, true⟩

/-- A fresh feedback-analysis operation, no feedback rows yet. -/

def fFreshWorld : FWorld :=
  ⟨⟨"feedback_analysis", "pending", none, none⟩, 0⟩

/-- Feedback-task oracle: analysis succeeds, the store fails with a
non-integrity error, the failure commit succeeds. -/

def fStoreFailOracle : FOracle :=
  ⟨true, true, .ok ⟨"scores"⟩, .otherError, true, true⟩

theorem maskedChars_eq_string : maskedChars = "***MASKED***".data := by decide

theorem alnumRun_append (l : List Char) : (alnumRun l).1 ++ (alnumRun l).2 = l := by
  induction l with
  | nil => rfl
  | cons c cs ih =>
    by_cases h : c.isAlphanum
    · simp [alnumRun, h, ih]
    · simp [alnumRun, h]

theorem alnumRun_fst_all (l : List Char) : ∀ c ∈ (alnumRun l).1, c.isAlphanum = true := by
  induction l with
  | nil => intro c hc; simp [alnumRun] at hc
  | cons c cs ih =>
    by_cases h : c.isAlphanum
    · intro d hd
      simp only [alnumRun, h, if_true] at hd
      rcases List.mem_cons.mp hd with h1 | h2
      · simpa [h1] using h
      · exact ih d h2
    · intro d hd; simp [alnumRun, h] at hd

theorem alnumRun_snd_head (l : List Char) :
    ∀ c cs, (alnumRun l).2 = c :: cs → c.isAlphanum = false := by
  induction l with
  | nil => intro c cs h; simp [alnumRun] at h
  | cons d ds ih =>
    intro c cs h
    by_cases hd : d.isAlphanum
    · simp only [alnumRun, hd, if_true] at h
      exact ih c cs h
    · simp only [alnumRun, hd, if_false] at h
      cases h
      simpa using hd

theorem alnumRun_of_run (run rest : List Char)
    (hrun : ∀ c ∈ run, c.isAlphanum = true)
    (hrest : ∀ c cs, rest = c :: cs → c.isAlphanum = false) :
    alnumRun (run ++ rest) = (run, rest) := by
  induction run with
  | nil =>
    cases h : rest with
    | nil => simp [alnumRun, h]
    | cons c cs =>
      have := hrest c cs h
      simp [alnumRun, this, h]
  | cons c cs ih =>
    have hc : c.isAlphanum = true := hrun c (List.mem_cons_self c cs)
    have ih2 := ih (fun d hd => hrun d (List.mem_cons_of_mem c hd))
    simp [alnumRun, hc, ih2]

theorem keyMatch_length {l rest : List Char} (h : keyMatch l = some rest) :
    rest.length + 13 ≤ l.length := by
  rw [keyMatch.eq_def] at h
  split at h
  · rename_i tl
    split at h
    · rename_i hcond
      cases h
      have hsplit := alnumRun_append tl
      have hlen : (alnumRun tl).1.length + (alnumRun tl).2.length = tl.length := by
        rw [← List.length_append, hsplit]
      simp only [List.length_cons]
      omega
    · cases h
  · cases h

theorem keyMatch_none_of_head {c : Char} {cs : List Char} (h : c ≠ 's') :
    keyMatch (c :: cs) = none := by
  rw [keyMatch.eq_def]
  split
  · rename_i heq
    injection heq with e1 _
    exact absurd e1 h
  · rfl

theorem maskAuxF_congr : ∀ (f1 f2 : Nat) (prev : Bool) (l : List Char),
    l.length ≤ f1 → l.length ≤ f2 → maskAuxF f1 prev l = maskAuxF f2 prev l := by
  intro f1
  induction f1 with
  | zero =>
    intro f2 prev l h1 _
    have : l = [] := List.length_eq_zero.mp (Nat.le_zero.mp h1)
    subst this
    cases f2 <;> rfl
  | succ g ih =>
    intro f2 prev l h1 h2
    cases l with
    | nil => cases f2 <;> rfl
    | cons c cs =>
      cases f2 with
      | zero => simp at h2
      | succ g2 =>
        simp only [maskAuxF]
        cases hk : keyMatch (c :: cs) with
        | some rest =>
          have hlen := keyMatch_length hk
          simp only [List.length_cons] at h1 h2 hlen
          by_cases hp : prev
          · simp only [hp, if_true]
            rw [ih g2 (isWordChar c) cs (by omega) (by omega)]
          · simp only [hp, if_false, Bool.false_eq_true]
            rw [ih g2 true rest (by omega) (by omega)]
        | none =>
          simp only [List.length_cons] at h1 h2
          rw [ih g2 (isWordChar c) cs (by omega) (by omega)]

theorem maskAux_nil (prev : Bool) : maskAux prev [] = [] := by
  cases prev <;> rfl

theorem maskAux_cons_match {c : Char} {cs rest : List Char}
    (hk : keyMatch (c :: cs) = some rest) :
    maskAux false (c :: cs) = maskedChars ++ maskAux true rest := by
  have hlen := keyMatch_length hk
  simp only [List.length_cons] at hlen
  unfold maskAux
  simp only [List.length_cons, maskAuxF, hk, if_false, Bool.false_eq_true]
  rw [maskAuxF_congr cs.length rest.length true rest (by omega) (by omega)]

theorem maskAux_cons_copy {prev : Bool} {c : Char} {cs : List Char}
    (h : prev = true ∨ keyMatch (c :: cs) = none) :
    maskAux prev (c :: cs) = c :: maskAux (isWordChar c) cs := by
  unfold maskAux
  simp only [List.length_cons, maskAuxF]
  cases hk : keyMatch (c :: cs) with
  | some rest =>
    rcases h with h | h
    · simp [h]
    · rw [h] at hk; cases hk
  | none => rfl

theorem isWordChar_of_alnum {c : Char} (h : c.isAlphanum = true) : isWordChar c = true := by
  simp [isWordChar, h]

theorem maskAux_true_run (l : List Char) :
    maskAux true l = (alnumRun l).1 ++ maskAux true (alnumRun l).2 := by
  induction l with
  | nil => simp [alnumRun]
  | cons c cs ih =>
    by_cases h : c.isAlphanum
    · rw [maskAux_cons_copy (Or.inl rfl), isWordChar_of_alnum h]
      simp only [alnumRun, h, if_true]
      rw [ih]
      simp
    · simp only [alnumRun, h, if_false, Bool.false_eq_true]
      simp

theorem keyMatch_none_of_second {d : Char} {tl : List Char} (h : d ≠ 'k') :
    keyMatch ('s' :: d :: tl) = none := by
  rw [keyMatch.eq_def]
  split
  · rename_i heq
    injection heq with _ h2
    injection h2 with e2 _
    exact absurd e2 h
  · rfl

theorem keyMatch_none_of_third {e : Char} {tl : List Char} (h : e ≠ '-') :
    keyMatch ('s' :: 'k' :: e :: tl) = none := by
  rw [keyMatch.eq_def]
  split
  · rename_i heq
    injection heq with _ h2
    injection h2 with _ h3
    injection h3 with e3 _
    exact absurd e3 h
  · rfl

theorem keyMatch_skd_short {tl : List Char} (h : (alnumRun tl).1.length < 10) :
    keyMatch ('s' :: 'k' :: '-' :: tl) = none := by
  simp only [keyMatch]
  rw [if_neg]
  intro hc
  exact absurd hc.1 (by omega)

theorem keyMatch_skd_head_not_alnum {x : Char} {tl : List Char} (hx : x.isAlphanum = false) :
    keyMatch ('s' :: 'k' :: '-' :: x :: tl) = none := by
  apply keyMatch_skd_short
  simp [alnumRun, hx]

theorem keyMatch_rest_boundary {l rest : List Char} (h : keyMatch l = some rest) :
    boundaryAfter rest = true := by
  rw [keyMatch.eq_def] at h
  split at h
  · split at h
    · rename_i hcond
      cases h
      exact hcond.2
    · cases h
  · cases h

/-- After a match the scanner resumes at a position whose character is not a
word character (or at the end), so the resumed scan is insensitive to the
tracked previous-character flag. -/
theorem maskAux_boundary_prev {rest : List Char} (h : boundaryAfter rest = true) :
    maskAux true rest = maskAux false rest := by
  cases rest with
  | nil => simp [maskAux_nil]
  | cons c cs =>
    simp only [boundaryAfter, Bool.not_eq_true'] at h
    have hs : c ≠ 's' := by
      intro hc
      rw [hc] at h
      simp [isWordChar, Char.isAlphanum, Char.isAlpha, Char.isLower] at h
    rw [maskAux_cons_copy (Or.inl rfl), maskAux_cons_copy (Or.inr (keyMatch_none_of_head hs))]

theorem not_alnum_ne_s {y : Char} (hy : y.isAlphanum = false) : y ≠ 's' := by
  intro hcy
  rw [hcy] at hy
  exact absurd hy (by decide)

/-- With the previous-character flag set, masking keeps the head character
of a nonempty input. -/
theorem maskAux_true_cons (c : Char) (cs : List Char) :
    maskAux true (c :: cs) = c :: maskAux (isWordChar c) cs :=
  maskAux_cons_copy (Or.inl rfl)

/-- Masking never manufactures a key match at the current position: if the
pattern does not match at the head of the input, it does not match at the
head of the masked output either. -/
theorem keyMatch_maskAux_none {l : List Char} (h : keyMatch l = none) (prev : Bool) :
    keyMatch (maskAux prev l) = none := by
  cases l with
  | nil => rw [maskAux_nil]; rfl
  | cons c cs =>
    rw [maskAux_cons_copy (Or.inr h)]
    by_cases hc : c = 's'
    swap
    · exact keyMatch_none_of_head hc
    subst hc
    rw [show isWordChar 's' = true from by decide]
    cases cs with
    | nil => rw [maskAux_nil]; rfl
    | cons d cs2 =>
      rw [maskAux_true_cons]
      by_cases hd : d = 'k'
      swap
      · exact keyMatch_none_of_second hd
      subst hd
      rw [show isWordChar 'k' = true from by decide]
      cases cs2 with
      | nil => rw [maskAux_nil]; rfl
      | cons e cs3 =>
        rw [maskAux_true_cons]
        by_cases he : e = '-'
        swap
        · exact keyMatch_none_of_third he
        subst he
        rw [show isWordChar '-' = false from by decide]
        cases cs3 with
        | nil =>
          rw [maskAux_nil]
          apply keyMatch_skd_short
          simp [alnumRun]
        | cons x cs4 =>
          cases hm : keyMatch (x :: cs4) with
          | some r =>
            rw [maskAux_cons_match hm]
            rw [show maskedChars ++ maskAux true r = '*' :: (maskedChars.tail ++ maskAux true r)
              from by rw [maskedChars]; rfl]
            exact keyMatch_skd_head_not_alnum (by decide)
          | none =>
            rw [maskAux_cons_copy (Or.inr hm)]
            by_cases hx : x.isAlphanum
            swap
            · exact keyMatch_skd_head_not_alnum (by simpa using hx)
            rw [isWordChar_of_alnum hx, maskAux_true_run]
            have hrun : alnumRun (x :: ((alnumRun cs4).1 ++ maskAux true (alnumRun cs4).2)) =
                (x :: (alnumRun cs4).1, maskAux true (alnumRun cs4).2) := by
              have hall : ∀ a ∈ x :: (alnumRun cs4).1, a.isAlphanum = true := by
                intro a ha
                rcases List.mem_cons.mp ha with h1 | h2
                · rw [h1]; exact hx
                · exact alnumRun_fst_all cs4 a h2
              have hrest : ∀ a as, maskAux true (alnumRun cs4).2 = a :: as →
                  a.isAlphanum = false := by
                intro a as hds
                cases hsnd : (alnumRun cs4).2 with
                | nil => rw [hsnd, maskAux_nil] at hds; cases hds
                | cons y ys =>
                  have hy : y.isAlphanum = false := alnumRun_snd_head cs4 y ys hsnd
                  rw [hsnd, maskAux_true_cons] at hds
                  injection hds with h1 _
                  rw [← h1]; exact hy
              have := alnumRun_of_run (x :: (alnumRun cs4).1) (maskAux true (alnumRun cs4).2)
                hall hrest
              simpa using this
            have horig : alnumRun (x :: cs4) = (x :: (alnumRun cs4).1, (alnumRun cs4).2) := by
              simp [alnumRun, hx]
            have hbnd : boundaryAfter (maskAux true (alnumRun cs4).2) =
                boundaryAfter ((alnumRun cs4).2) := by
              cases hsnd : (alnumRun cs4).2 with
              | nil => rw [maskAux_nil]
              | cons y ys => rw [maskAux_true_cons]; rfl
            simp only [keyMatch] at h ⊢
            rw [horig] at h
            rw [hrun, if_neg]
            intro hcond
            rw [hbnd] at hcond
            rw [if_pos] at h
            · cases h
            · simpa using hcond

theorem hasKeyAux_append (pre : List Char) (X : List Char) (prev : Bool)
    (hs : ∀ c ∈ pre, c ≠ 's') :
    hasKeyAux prev (pre ++ X) =
      hasKeyAux (List.foldl (fun _ c => isWordChar c) prev pre) X := by
  induction pre generalizing prev with
  | nil => rfl
  | cons c pre2 ih =>
    have hcs : c ≠ 's' := hs c (List.mem_cons_self c pre2)
    simp only [List.cons_append, hasKeyAux, keyMatch_none_of_head hcs, Option.isSome_none,
      Bool.and_false, Bool.false_or]
    rw [show pre2.append X = pre2 ++ X from rfl,
      ih (isWordChar c) (fun a ha => hs a (List.mem_cons_of_mem c ha))]
    rfl

/-- The masked output contains no word-boundary-delimited key occurrence. -/
theorem hasKeyAux_maskAux (l : List Char) (prev : Bool) :
    hasKeyAux prev (maskAux prev l) = false := by
  cases l with
  | nil => rw [maskAux_nil]; rfl
  | cons c cs =>
    by_cases hp : prev = true
    · subst hp
      rw [maskAux_true_cons]
      simp only [hasKeyAux, Bool.not_true, Bool.false_and, Bool.false_or]
      exact hasKeyAux_maskAux cs (isWordChar c)
    · have hp2 : prev = false := by simpa using hp
      subst hp2
      cases hm : keyMatch (c :: cs) with
      | none =>
        rw [maskAux_cons_copy (Or.inr hm)]
        simp only [hasKeyAux, Bool.not_false, Bool.true_and, Bool.or_eq_false_iff]
        constructor
        · have := keyMatch_maskAux_none hm false
          rw [maskAux_cons_copy (Or.inr hm)] at this
          rw [this]
          rfl
        · exact hasKeyAux_maskAux cs (isWordChar c)
      | some rest =>
        rw [maskAux_cons_match hm]
        rw [hasKeyAux_append maskedChars (maskAux true rest) false (by decide)]
        rw [show List.foldl (fun _ c => isWordChar c) false maskedChars = false from by decide]
        have hb : boundaryAfter rest = true := keyMatch_rest_boundary hm
        rw [maskAux_boundary_prev hb]
        exact hasKeyAux_maskAux rest false
termination_by l.length
decreasing_by
  · simp only [List.length_cons]; omega
  · simp only [List.length_cons]; omega
  · have := keyMatch_length hm
    simp only [List.length_cons] at this ⊢
    omega

/-- A string with no delimited key occurrence is a fixed point of the
masking scanner. -/
theorem maskAux_of_no_key {l : List Char} {prev : Bool}
    (h : hasKeyAux prev l = false) : maskAux prev l = l := by
  induction l generalizing prev with
  | nil => exact maskAux_nil prev
  | cons c cs ih =>
    simp only [hasKeyAux, Bool.or_eq_false_iff, Bool.and_eq_false_iff] at h
    obtain ⟨h1, h2⟩ := h
    by_cases hp : prev = true
    · subst hp
      rw [maskAux_true_cons, ih h2]
    · have hp2 : prev = false := by simpa using hp
      subst hp2
      rcases h1 with h1 | h1
      · cases h1
      · have hm : keyMatch (c :: cs) = none := by
          cases hmm : keyMatch (c :: cs) with
          | none => rfl
          | some r => rw [hmm] at h1; cases h1
        rw [maskAux_cons_copy (Or.inr hm), ih h2]

/-- C10: `mask_secrets` is idempotent — masking an already-masked string
changes nothing, because substitution never creates a fresh delimited key. -/
theorem mask_secrets_idempotent (s : String) :
    mask_secrets (mask_secrets s) = mask_secrets s := by
  unfold mask_secrets
  exact congrArg String.mk (maskAux_of_no_key (hasKeyAux_maskAux s.data false))

/-- C9 counterexample: `mask_secrets` only replaces occurrences delimited by
the regex word boundaries.  In `"Ask-aaaaaaaaaa"` the API-key-shaped
substring `"sk-aaaaaaaaaa"` (prefix `sk-` plus 10 alphanumerics) is
preceded by the word character `A`, so nothing is replaced and the returned
string still contains the key-shaped substring. -/
theorem mask_secrets_keeps_undelimited_key :
    isApiKeyShaped ("sk-aaaaaaaaaa".data) = true ∧
    mask_secrets ("Ask-aaaaaaaaaa") = "Ask-aaaaaaaaaa" ∧
    ("sk-aaaaaaaaaa".data <:+: (mask_secrets ("Ask-aaaaaaaaaa")).data) := by
  refine ⟨by decide, by decide, ?_⟩
  decide

/-- C9 (amended): for every input string, `mask_secrets` replaces every
word-boundary-delimited API-key-shaped substring (`sk-` plus 10 or more
alphanumerics, preceded by start of input or a non-word character and
followed by end of input or a non-word character) with the fixed
placeholder, so its output never contains a delimited key occurrence; in
particular masking `"sk-" ++ "a"*20` yields exactly `"***MASKED***"`. -/
theorem mask_secrets_masks_delimited_keys (s : String) :
    hasKeyAux false (mask_secrets s).data = false ∧
    mask_secrets ("sk-aaaaaaaaaaaaaaaaaaaa") = "***MASKED***" := by
  exact ⟨hasKeyAux_maskAux s.data false, by decide⟩

/-- C4: a status-429 exception with a quota-marker body is claimed to
classify as `QUOTA_EXCEEDED`, but `classify_openai_error` matches the SDK
`RateLimitError` class before ever running the quota check, so the real
429-with-quota exception classifies as `RATE_LIMIT` — contradicting both
the claim and the repository's own test.  The same data carried by a plain
`APIError` does classify as `QUOTA_EXCEEDED`, exhibiting the ordering slip. -/
theorem classify_rate_limit_quota_body_is_rate_limit :
    _extract_status_code quotaRateLimitInput = some 429 ∧
    (_extract_body quotaRateLimitInput).bind ErrorBody.code = some ("insufficient_quota") ∧
    classify_openai_error quotaRateLimitInput =
      ⟨.rateLimit, "OpenAI rate limit exceeded. Please wait and try again.", "RATE_LIMIT"⟩ ∧
    (classify_openai_error quotaRateLimitInput).kind ≠ AppErrorKind.quotaExceeded ∧
    (classify_openai_error
        (.apiError ("Error code: 429 - insufficient_quota") (some 429)
          (some ⟨some ("insufficient_quota")⟩))).kind = AppErrorKind.quotaExceeded := by
  refine ⟨rfl, rfl, rfl, by decide, by decide⟩

theorem retryGo_all_fail {ε α : Type} (base : ℚ) (retriable : ε → Bool)
    (f : Nat → Except ε α) (jit : Nat → ℚ)
    (hf : ∀ k, ∃ e, f k = .error e ∧ retriable e = true) :
    ∀ remaining attempt, retryGo base retriable f jit attempt remaining =
      (remaining + 1,
       (List.range remaining).map (fun i => base * 2 ^ (attempt + i) + jit (attempt + i)),
       f (attempt + remaining)) := by
  intro remaining
  induction remaining with
  | zero =>
    intro attempt
    obtain ⟨e, hfe, _⟩ := hf attempt
    simp [retryGo, hfe]
  | succ r ih =>
    intro attempt
    obtain ⟨e, hfe, hre⟩ := hf attempt
    simp only [retryGo, hfe, hre, if_true, ih (attempt + 1), Prod.mk.injEq]
    refine ⟨by trivial, ?_, by rw [show attempt + 1 + r = attempt + (r + 1) from by omega]⟩
    rw [List.range_succ_eq_map, List.map_cons, List.map_map]
    simp only [List.cons.injEq]
    constructor
    · rw [Nat.add_zero]
    · apply List.map_congr_left
      intro i _
      simp only [Function.comp_apply, Nat.succ_eq_add_one]
      rw [show attempt + 1 + i = attempt + (i + 1) from by omega]

/-- C5: for every function wrapped by `async_retry` with `max_retries = n`
and every input on which every attempt raises a retriable exception, the
wrapper invokes the function exactly `n + 1` times and then re-raises the
exception object of the last attempt unchanged. -/
theorem async_retry_exhausts_attempts {ε α : Type} (n : Nat) (base : ℚ)
    (retriable : ε → Bool) (f : Nat → Except ε α) (jit : Nat → ℚ)
    (hf : ∀ k, ∃ e, f k = .error e ∧ retriable e = true) :
    (async_retry_run n base retriable f jit).1 = n + 1 ∧
    (async_retry_run n base retriable f jit).2.2 = f n := by
  rw [async_retry_run, retryGo_all_fail base retriable f jit hf n 0]
  exact ⟨rfl, by rw [Nat.zero_add]⟩

/-- Witness for C5 at `max_retries = 3`: a function raising a distinct
retriable exception on every attempt is invoked 4 times and the run ends
with the attempt-3 exception. -/
theorem async_retry_exhausts_attempts_witness :
    (async_retry_run 3 1 (fun _ => true)
        (fun k => (.error k : Except Nat Unit)) (fun _ => 0)).1 = 4 ∧
    (async_retry_run 3 1 (fun _ => true)
        (fun k => (.error k : Except Nat Unit)) (fun _ => 0)).2.2 = .error 3 := by
  have h := async_retry_exhausts_attempts 3 1 (fun _ => true)
    (fun k => (.error k : Except Nat Unit)) (fun _ => 0) (fun k => ⟨k, rfl, rfl⟩)
  exact h

/-- C6: the retry policy around the upstream OpenAI call retries only
network-class and server-class exceptions; when the wrapped call raises a
`RateLimitError`, `QuotaExceededError`, or `AuthenticationError` (or any
other non-retriable exception), exactly one attempt occurs, no backoff
sleep happens, and the same exception propagates immediately. -/
theorem openai_retry_rejects_non_transient {α : Type}
    (f : Nat → Except OpenAIIntegrationError α) (jit : Nat → ℚ)
    (e : OpenAIIntegrationError) (hf : f 0 = .error e)
    (hk : e.kind = .rateLimit ∨ e.kind = .quotaExceeded ∨ e.kind = .authentication ∨
      openaiRetriable e = false) :
    chat_completion_retry_run f jit = (1, [], .error e) := by
  have hr : openaiRetriable e = false := by
    rcases hk with h | h | h | h
    · simp [openaiRetriable, h]
    · simp [openaiRetriable, h]
    · simp [openaiRetriable, h]
    · exact h
  simp [chat_completion_retry_run, async_retry_run, retryGo, hf, hr]

/-- Witness for C6: the app-level `RateLimitError` produced by the
classifier is not retried — one attempt, no sleeps, same exception out. -/
theorem openai_retry_rejects_non_transient_witness :
    chat_completion_retry_run
        (fun _ => (.error (classify_openai_error quotaRateLimitInput) :
          Except OpenAIIntegrationError Unit))
        (fun _ => 0) =
      (1, [], .error (classify_openai_error quotaRateLimitInput)) := by
  exact openai_retry_rejects_non_transient
    (fun _ => (.error (classify_openai_error quotaRateLimitInput) :
      Except OpenAIIntegrationError Unit))
    (fun _ => 0) (classify_openai_error quotaRateLimitInput) rfl (Or.inl (by decide))

theorem retryGo_wait_values {ε α : Type} (base : ℚ) (retriable : ε → Bool)
    (f : Nat → Except ε α) (jit : Nat → ℚ) :
    ∀ remaining attempt k,
      k < (retryGo base retriable f jit attempt remaining).2.1.length →
      (retryGo base retriable f jit attempt remaining).2.1.getD k 0 =
        base * 2 ^ (attempt + k) + jit (attempt + k) := by
  intro remaining
  induction remaining with
  | zero =>
    intro attempt k hk
    exfalso
    cases hfa : f attempt with
    | ok v => rw [retryGo, hfa] at hk; simp at hk
    | error e => rw [retryGo, hfa] at hk; simp at hk
  | succ r ih =>
    intro attempt k hk
    cases hfa : f attempt with
    | ok v => rw [retryGo, hfa] at hk; simp at hk
    | error e =>
      by_cases hre : retriable e
      · rw [retryGo, hfa] at hk ⊢
        simp only [hre, if_true] at hk ⊢
        cases k with
        | zero =>
          simp [Nat.add_zero]
        | succ k2 =>
          simp only [List.getD_cons_succ]
          simp only [List.length_cons, Nat.succ_lt_succ_iff] at hk
          rw [ih (attempt + 1) k2 hk]
          rw [show attempt + 1 + k2 = attempt + (k2 + 1) from by omega]
      · exfalso
        rw [retryGo, hfa] at hk
        simp [hre] at hk

/-- C7: before the k-th retry (0-indexed) the wrapper sleeps exactly
`backoff_base_seconds * 2^k` plus the jitter sampled uniformly from
`[0, jitter_ratio * (backoff_base_seconds * 2^k)]`; hence every slept
delay lies in `[base * 2^k, (1 + ratio) * (base * 2^k)]` — with the
call-site values `base = 1`, `ratio = 1/10` this is `[2^k, 1.1 * 2^k]`. -/
theorem async_retry_backoff_schedule {ε α : Type} (mr : Nat) (base ratio : ℚ)
    (retriable : ε → Bool) (f : Nat → Except ε α) (jit : Nat → ℚ)
    (hjit : ∀ k, 0 ≤ jit k ∧ jit k ≤ ratio * (base * 2 ^ k)) :
    ∀ k, k < (async_retry_run mr base retriable f jit).2.1.length →
      (async_retry_run mr base retriable f jit).2.1.getD k 0 = base * 2 ^ k + jit k ∧
      base * 2 ^ k ≤ (async_retry_run mr base retriable f jit).2.1.getD k 0 ∧
      (async_retry_run mr base retriable f jit).2.1.getD k 0 ≤
        (1 + ratio) * (base * 2 ^ k) := by
  intro k hk
  have hval := retryGo_wait_values base retriable f jit mr 0 k hk
  rw [Nat.zero_add] at hval
  unfold async_retry_run
  refine ⟨hval, ?_, ?_⟩
  · rw [hval]
    have := (hjit k).1
    linarith
  · rw [hval]
    have := (hjit k).2
    linarith

/-- Witness for C7 with the call-site parameters and a concrete in-range
jitter sample: the delay before retry k = 1 is `2 + 1/10 = 21/10`, inside
`[2^1, 1.1 * 2^1]`. -/
theorem async_retry_backoff_schedule_witness :
    (async_retry_run 3 1 (fun _ => true)
        (fun k => (.error k : Except Nat Unit)) (fun k => 2 ^ k / 20)).2.1.getD 1 0 =
      1 * 2 ^ 1 + 2 ^ 1 / 20 ∧
    (1 : ℚ) * 2 ^ 1 ≤ (async_retry_run 3 1 (fun _ => true)
        (fun k => (.error k : Except Nat Unit)) (fun k => 2 ^ k / 20)).2.1.getD 1 0 ∧
    (async_retry_run 3 1 (fun _ => true)
        (fun k => (.error k : Except Nat Unit)) (fun k => 2 ^ k / 20)).2.1.getD 1 0 ≤
      (1 + 1 / 10) * (1 * 2 ^ 1) := by
  exact async_retry_backoff_schedule 3 1 (1 / 10) (fun _ => true)
    (fun k => (.error k : Except Nat Unit)) (fun k => 2 ^ k / 20)
    (by
      intro k
      constructor
      · positivity
      · rw [div_le_iff₀ (by norm_num)]
        ring_nf
        nlinarith [pow_pos (show (0:ℚ) < 2 from by norm_num) k])
    1 (by decide)

/-- C8: `retry_operation` cannot perform the retry the claim (and the
repository's own migration, response schema and tests) describes.  On an
existing `failed` operation it raises `AttributeError` reading
`original_op.retry_count` — the `Operation` model maps no such column —
so no new row is created and the endpoint's generic handler answers 500
rather than returning the linked `pending` retry.  The absent-target and
non-`failed` cases do raise the claimed `ValueError`s without touching
the table. -/
theorem retry_operation_raises_attribute_error :
    retry_operation [failedOpRow] 7 1 =
      ([failedOpRow], .error (.attributeError ("retry_count"))) ∧
    failedOpRow.status = "failed" ∧
    pyGetattr (opAttrs failedOpRow) ("retry_count") = none ∧
    pyGetattr (opAttrs failedOpRow) ("parent_operation_id") = none ∧
    retry_operation [] 7 1 = ([], .error (.valueError ("Operation not found"))) ∧
    retry_operation [⟨7, "question_generation", "completed", some ("{}"), none, 0, 0⟩] 7 1 =
      ([⟨7, "question_generation", "completed", some ("{}"), none, 0, 0⟩],
       .error (.valueError ("Can only retry failed operations"))) := by
  refine ⟨by decide, rfl, by decide, by decide, by decide, by decide⟩

/-- The manual retry service leaves the operations table unchanged on
every input (its only row-creating branch is unreachable, `retry_count`
being unmapped). -/
theorem retry_operation_table_unchanged (ops : List OperationRow) (opId uid : Nat) :
    (retry_operation ops opId uid).1 = ops := by
  unfold retry_operation
  split
  · rfl
  · split
    · rfl
    · split <;> rfl

/-- C1: in a run where generation succeeds but the atomic store — the
flush/commit writing the domain side effect together with the operation
completion — fails and the failure write succeeds, each runner commits
exactly processing followed by a `failed` state carrying the rendered
`DB_WRITE_FAILED` message: the message count, question counter, feedback
count and `result` field of the final state are those of the initial
state, so no partial side effect is observable.  The last conjunct
evaluates the rendered message text. -/
theorem task_db_write_failure_is_atomic
    (w : QWorld) (o : QOracle) (qd : QuestionData)
    (h1 : o.opFound = true) (h2 : o.sessionFound = true) (h3 : o.gen = .ok qd)
    (h4 : o.storeOk = false) (h5 : o.failCommitOk = true)
    (v : FWorld) (p : FOracle) (fd : FeedbackData)
    (g1 : p.opFound = true) (g2 : p.userFound = true) (g3 : p.analyze = .ok fd)
    (g4 : p.store = .otherError) (g5 : p.failCommitOk = true) :
    generate_question_task w o =
      [{ w with op := { w.op with status := "processing" } },
       { w with op := { w.op with
          status := "failed",
          error_message := some (generate_user_friendly_message ("DB_WRITE_FAILED")
            w.op.operation_type) } }] ∧
    generate_feedback_task v p =
      [{ v with op := { v.op with status := "processing" } },
       { v with op := { v.op with
          status := "failed",
          error_message := some (generate_user_friendly_message ("DB_WRITE_FAILED")
            v.op.operation_type) } }] ∧
    generate_user_friendly_message ("DB_WRITE_FAILED") ("question_generation") =
      "We couldn't save the result of this AI operation.\n\nWhat to do: Try again. If the problem persists, contact support." := by
  refine ⟨?_, ?_, by decide⟩
  · simp [generate_question_task, opFailedQ, h1, h2, h3, h4, h5]
  · simp [generate_feedback_task, opFailedF, g1, g2, g3, g4, g5]

/-- Witness for C1 on concrete fresh operations: both runners end `failed`
with the `DB_WRITE_FAILED` message and create no message/feedback row. -/
theorem task_db_write_failure_is_atomic_witness :
    ((generate_question_task qFreshWorld qStoreFailOracle).getD 1 qFreshWorld).op.status =
      "failed" ∧
    ((generate_question_task qFreshWorld qStoreFailOracle).getD 1 qFreshWorld).op.error_message =
      some (generate_user_friendly_message ("DB_WRITE_FAILED") ("question_generation")) ∧
    ((generate_question_task qFreshWorld qStoreFailOracle).getD 1 qFreshWorld).msgCount = 0 ∧
    ((generate_question_task qFreshWorld qStoreFailOracle).getD 1
      qFreshWorld).currentQuestionNumber = 0 ∧
    ((generate_feedback_task fFreshWorld fStoreFailOracle).getD 1 fFreshWorld).op.status =
      "failed" ∧
    ((generate_feedback_task fFreshWorld fStoreFailOracle).getD 1 fFreshWorld).feedbackCount =
      0 := by
  have h := task_db_write_failure_is_atomic qFreshWorld qStoreFailOracle
    ⟨"What is a closure?", "technical"⟩ rfl rfl rfl rfl rfl
    fFreshWorld fStoreFailOracle ⟨"scores"⟩ rfl rfl rfl rfl rfl
  rw [h.1, h.2.1]
  exact ⟨rfl, rfl, rfl, rfl, rfl, rfl⟩

/-- C2 counterexample: from a fresh `pending` operation the question task
can commit `completed` (with its side effects) and then — when the
post-commit `db.refresh(message)` raises, which the source catches in the
same store-failure handler — commit `failed` on top of it.  The committed
result payload cannot be rolled back, so the final reachable state is
`failed` with a non-null `result` (and a non-null `error_message`),
refuting `result != null ↔ status = completed`. -/
theorem operation_result_error_invariant_cex :
    qFreshWorld.op.status = "pending" ∧
    qFreshWorld.op.result = none ∧
    qFreshWorld.op.error_message = none ∧
    (generate_question_task qFreshWorld qRefreshFailOracle).length = 3 ∧
    ((generate_question_task qFreshWorld qRefreshFailOracle).getD 2 qFreshWorld).op.status =
      "failed" ∧
    (((generate_question_task qFreshWorld qRefreshFailOracle).getD 2
      qFreshWorld).op.result).isSome = true ∧
    (((generate_question_task qFreshWorld qRefreshFailOracle).getD 2
      qFreshWorld).op.error_message).isSome = true := by
  refine ⟨rfl, rfl, rfl, by decide, by decide, by decide, by decide⟩

/-- C2 (amended): provided the question task's post-success-commit
`db.refresh(message)` does not fail (the feedback task has no fallible
step after its commit), every state reachable from a fresh `pending`
operation through a task-runner execution satisfies the invariant:
`result` is non-null iff the status is `completed`, and `error_message`
is non-null iff the status is `failed` — hence both are null while
pending/processing and exactly one is non-null at a terminal state. -/
theorem operation_result_error_invariant :
    (∀ (w : QWorld) (o : QOracle),
      w.op.status = "pending" → w.op.result = none → w.op.error_message = none →
      o.refreshOk = true →
      ∀ s ∈ w :: generate_question_task w o,
        (s.op.result.isSome ↔ s.op.status = "completed") ∧
        (s.op.error_message.isSome ↔ s.op.status = "failed")) ∧
    (∀ (w : FWorld) (o : FOracle),
      w.op.status = "pending" → w.op.result = none → w.op.error_message = none →
      ∀ s ∈ w :: generate_feedback_task w o,
        (s.op.result.isSome ↔ s.op.status = "completed") ∧
        (s.op.error_message.isSome ↔ s.op.status = "failed")) := by
  constructor
  · intro w o h1 h2 h3 h4 s hs
    obtain ⟨of, sf, gen, so, ro, fc, oc⟩ := o
    simp only at h4
    subst h4
    cases of <;> cases sf <;> cases so <;> cases fc <;> cases oc <;>
      rcases gen with e | qd <;>
      simp [generate_question_task, opFailedQ] at hs <;>
      rcases hs with rfl | rfl | rfl | rfl <;> simp [h1, h2, h3]
  · intro w o h1 h2 h3 s hs
    obtain ⟨of, uf, analyze, st, fc, oc⟩ := o
    cases of <;> cases uf <;> cases fc <;> cases oc <;>
      rcases analyze with e | fd <;> cases st <;>
      simp [generate_feedback_task, opFailedF] at hs <;>
      rcases hs with rfl | rfl | rfl | rfl <;> simp [h1, h2, h3]

/-- Witness for C2: the `completed` state of a fully successful concrete
run satisfies both invariant equivalences. -/
theorem operation_result_error_invariant_witness :
    ((((generate_question_task qFreshWorld qSuccessOracle).getD 1 qFreshWorld).op.result).isSome ↔
      ((generate_question_task qFreshWorld qSuccessOracle).getD 1 qFreshWorld).op.status =
        "completed") ∧
    ((((generate_question_task qFreshWorld qSuccessOracle).getD 1
        qFreshWorld).op.error_message).isSome ↔
      ((generate_question_task qFreshWorld qSuccessOracle).getD 1 qFreshWorld).op.status =
        "failed") := by
  exact operation_result_error_invariant.1 qFreshWorld qSuccessOracle rfl rfl rfl rfl
    ((generate_question_task qFreshWorld qSuccessOracle).getD 1 qFreshWorld) (by decide)

/-- C3 counterexample: in the same refresh-failure run the committed
status sequence of the operation is
`pending, processing, completed, failed` — the last step leaves the
terminal state `completed` and overwrites it with `failed`. -/
theorem operation_status_monotonic_cex :
    qFreshWorld.op.status = "pending" ∧
    (generate_question_task qFreshWorld qRefreshFailOracle).map (fun s => s.op.status) =
      ["processing", "completed", "failed"] ∧
    isTerminalStatus "completed" = true ∧
    ("failed" : String) ≠ "completed" := by
  refine ⟨rfl, by decide, rfl, by decide⟩

/-- C3 (amended): provided the question task's post-success-commit
`db.refresh(message)` does not fail, the committed status sequence of an
operation — created `pending`, then run by its task runner — only moves
forward under `pending < processing < {completed, failed}` and never
leaves a terminal state; and the manual-retry service never changes the
operations table at all (it creates its new row only in an unreachable
branch, and mutates no existing row on any path). -/
theorem operation_status_monotonic :
    (∀ (w : QWorld) (o : QOracle),
      w.op.status = "pending" → o.refreshOk = true →
      List.Chain' statusStepOk
        ((w :: generate_question_task w o).map (fun s => s.op.status))) ∧
    (∀ (w : FWorld) (o : FOracle),
      w.op.status = "pending" →
      List.Chain' statusStepOk
        ((w :: generate_feedback_task w o).map (fun s => s.op.status))) ∧
    (∀ (ops : List OperationRow) (opId uid : Nat),
      (retry_operation ops opId uid).1 = ops) := by
  refine ⟨?_, ?_, retry_operation_table_unchanged⟩
  · intro w o h1 h4
    obtain ⟨of, sf, gen, so, ro, fc, oc⟩ := o
    simp only at h4
    subst h4
    cases of <;> cases sf <;> cases so <;> cases fc <;> cases oc <;>
      rcases gen with e | qd <;>
      simp [generate_question_task, opFailedQ, h1] <;> decide
  · intro w o h1
    obtain ⟨of, uf, analyze, st, fc, oc⟩ := o
    cases of <;> cases uf <;> cases fc <;> cases oc <;>
      rcases analyze with e | fd <;> cases st <;>
      simp [generate_feedback_task, opFailedF, h1] <;> decide

/-- Witness for C3: the status chain of a concrete fully successful run. -/
theorem operation_status_monotonic_witness :
    List.Chain' statusStepOk
      ((qFreshWorld :: generate_question_task qFreshWorld qSuccessOracle).map
        (fun s => s.op.status)) :=
  operation_status_monotonic.1 qFreshWorld qSuccessOracle rfl rfl

end AIInterviewer
